import Mathlib

/-!
Shallow embedding of fastapi-csv (src/fastapi_csv/applications.py) for
checking the natural-language specification against the code.

The embedding follows the source line by line:
* the request handler `generic_get` (kwargs loop, suffix dispatch, SQL text
  assembly by string concatenation),
* the grammar construction loop of `FastAPI_CSV.__init__` together with
  `dtype_to_type` and `is_date_string`,
* the store lifecycle (`update_database`, `delete_database`) as an event
  trace,
* the custom `regexp` sqlite function registered in `update_database`.

External collaborators are modelled where the claims need them, each with a
doc comment saying exactly what is modelled: pandas read_csv column dtype
inference, sqlite three-valued WHERE evaluation, Python pathlib stem, and
the transport layer (fastapi) that hands the handler one keyword argument
per declared query parameter, in declaration order.
-/

set_option linter.unusedVariables false

namespace FastapiCsv

/-- Values a query parameter may carry at the Python level once fastapi has
parsed the request: `str`, `int` and `bool` (the declared parameter types in
the source; `float` parameters behave exactly like `int` ones for the claims
formalised here and are omitted from the value universe). `none` at the
kwargs level stands for Python `None` (parameter not supplied). -/
inductive PyVal where
  | vStr (s : String)
  | vInt (n : Int)
  | vBool (b : Bool)
deriving DecidableEq

/-- The single-quote character that the source splices around string
operands inside the SQL text. -/
def sq : String := (Char.ofNat 39).toString

/-- Python `str(val)` for the values above: the f-string rendering used by
the source when concatenating a value into the SQL text. -/
def pyStrOf : PyVal → String
  | .vStr s => s
  | .vInt n => toString n
  | .vBool b => if b then "True" else "False"

/-- Python `name.endswith(t)`. -/
def pyEndswith (s t : String) : Bool := decide (t.data <:+ s.data)

/-- Python `name[:-n]` (drop the last `n` characters; empty result when the
string is not longer than `n`, as in Python). -/
def pyDropRight (s : String) (n : Nat) : String :=
  String.mk (s.data.take (s.data.length - n))

/-- The mutable state accumulated by the kwargs loop in `generic_get`:
`selected_cols`, `where_clauses` and `use_distinct` (source lines 88-90). -/
structure QueryParts where
  selected_cols : List String
  where_clauses : List String
  use_distinct : Bool
deriving DecidableEq

/-- Rendering of an Equals operand (source lines 119-121): string values are
wrapped in single quotes, every other value is rendered by `str`. -/
def eqRender : PyVal → String
  | .vStr s => sq ++ s ++ sq
  | v => pyStrOf v

/-- One iteration of the `for name, val in kwargs.items()` loop of
`generic_get` (source lines 91-121): `None` values are skipped, then the
name is dispatched on `== "use_distinct"` and the `endswith` suffix chain,
in source order, and the matching clause text is appended. -/
def step (acc : QueryParts) (kv : String × Option PyVal) : QueryParts :=
  match kv.2 with
  | none => acc
  | some val =>
    let name := kv.1
    if name = "use_distinct" then
      { acc with use_distinct := true }
    else if pyEndswith name "_selected" then
      { acc with selected_cols := acc.selected_cols ++ [pyDropRight name 9] }
    else if pyEndswith name "_greaterThan" then
      { acc with where_clauses :=
          acc.where_clauses ++ [pyDropRight name 12 ++ ">" ++ pyStrOf val] }
    else if pyEndswith name "_greaterThanEqual" then
      { acc with where_clauses :=
          acc.where_clauses ++ [pyDropRight name 17 ++ ">=" ++ pyStrOf val] }
    else if pyEndswith name "_lessThan" then
      { acc with where_clauses :=
          acc.where_clauses ++ [pyDropRight name 9 ++ "<" ++ pyStrOf val] }
    else if pyEndswith name "_lessThanEqual" then
      { acc with where_clauses :=
          acc.where_clauses ++ [pyDropRight name 14 ++ "<=" ++ pyStrOf val] }
    else if pyEndswith name "_contains" then
      { acc with where_clauses :=
          acc.where_clauses ++
            ["instr(" ++ pyDropRight name 9 ++ ", " ++ sq ++ pyStrOf val ++ sq ++ ") > 0"] }
    else if pyEndswith name "_like" then
      { acc with where_clauses :=
          acc.where_clauses ++
            [pyDropRight name 5 ++ " LIKE " ++ sq ++ pyStrOf val ++ sq] }
    else if pyEndswith name "_regex" then
      { acc with where_clauses :=
          acc.where_clauses ++
            [pyDropRight name 6 ++ " REGEXP " ++ sq ++ pyStrOf val ++ sq] }
    else if pyEndswith name "_isBefore" then
      { acc with where_clauses :=
          acc.where_clauses ++
            ["DATE(" ++ pyDropRight name 9 ++ ") < DATE(" ++ sq ++ pyStrOf val ++ sq ++ ")"] }
    else if pyEndswith name "_isAfter" then
      { acc with where_clauses :=
          acc.where_clauses ++
            ["DATE(" ++ pyDropRight name 8 ++ ") > DATE(" ++ sq ++ pyStrOf val ++ sq ++ ")"] }
    else
      { acc with where_clauses := acc.where_clauses ++ [name ++ "=" ++ eqRender val] }

/-- The whole kwargs loop of `generic_get`: fold `step` over the keyword
arguments in the order the transport hands them over. -/
def genericGetParts (kwargs : List (String × Option PyVal)) : QueryParts :=
  kwargs.foldl step ⟨[], [], false⟩

/-- Assembly of the SQL text from the accumulated parts (source lines
122-127): the `where` string, the comma-joined `selection`, and the final
f-string. Every fragment, operands included, is plain text concatenation,
exactly as in the source. -/
def buildSql (tableName : String) (p : QueryParts) : String :=
  let whereStr :=
    if p.where_clauses.isEmpty then ""
    else "WHERE " ++ String.intercalate " AND " p.where_clauses
  "SELECT " ++ (if p.use_distinct then "DISTINCT" else "") ++ " " ++
    (if p.selected_cols.isEmpty then "*" else String.intercalate "," p.selected_cols) ++
    " FROM " ++ tableName ++ " " ++ whereStr

/-- `generic_get` (source lines 87-128): from the keyword arguments to the
SQL text that is handed to `query_database` / `con.execute`. -/
def generic_get (tableName : String) (kwargs : List (String × Option PyVal)) : String :=
  buildSql tableName (genericGetParts kwargs)

/-- Split a character list at every slash. -/
def splitSlash : List Char → List (List Char)
  | [] => [[]]
  | c :: cs =>
    let r := splitSlash cs
    if c = Char.ofNat 47 then [] :: r
    else
      match r with
      | h :: t => (c :: h) :: t
      | [] => [[c]]

/-- Model of Python `pathlib.Path(p).name` for POSIX path strings: the last
path component, with empty components and lone dots dropped. -/
def pyPathName (p : String) : String :=
  match (((splitSlash p.data).map String.mk).filter
      (fun s => s ≠ "" && s ≠ ".")).getLast? with
  | some n => n
  | none => ""

/-- Index of the last dot of a character list, if any. -/
def rfindDot : List Char → Option Nat
  | [] => none
  | c :: cs =>
    match rfindDot cs with
    | some i => some (i + 1)
    | none => if c = Char.ofNat 46 then some 0 else none

/-- Model of Python `pathlib.Path(p).stem`: the final component minus its
last suffix; the dot counts as a suffix separator only when it is neither
the first nor the last character of the component. -/
def pyStem (p : String) : String :=
  let name := pyPathName p
  match rfindDot name.data with
  | some i =>
    if 0 < i ∧ i + 1 < name.data.length then String.mk (name.data.take i) else name
  | none => name

/-- Python `s.replace(a, b)` for single-character patterns: replace every
occurrence. -/
def pyReplaceChar (s : String) (a b : Char) : String :=
  String.mk (s.data.map (fun c => if c = a then b else c))

/-- `self.table_name = Path(self.csv_path).stem.replace(d, u)` with `d` the
hyphen and `u` the underscore (source line 78). -/
def table_name (csvPath : String) : String :=
  pyReplaceChar (pyStem csvPath) (Char.ofNat 45) (Char.ofNat 95)

/-- The routes registered by `FastAPI_CSV.__init__` for a CSV path: exactly
one GET route at `"/" + table_name` (source lines 129-131). -/
def routesOf (csvPath : String) : List (String × String) :=
  [("GET", "/" ++ table_name csvPath)]

/-- The endpoint handler as constructed: `generic_get` with `self.table_name`
captured from the csv path. -/
def endpointOf (csvPath : String) (kwargs : List (String × Option PyVal)) : String :=
  generic_get (table_name csvPath) kwargs

/-! ## Grammar construction (`FastAPI_CSV.__init__`, `dtype_to_type`,
`is_date_string`) -/

/-- The numpy/pandas storage dtypes the source can receive from
`pd.read_csv`. -/
inductive Dtype where
  | int64
  | float64
  | boolDt
  | objectDt
deriving DecidableEq

/-- The plain Python types the source converts dtypes to and uses as query
parameter types. -/
inductive PyType where
  | pyInt
  | pyFloat
  | pyBool
  | pyStr
deriving DecidableEq

/-- `dtype_to_type` (source lines 38-43): `np.object` maps to `str`, any
other dtype to the type of its zero element (`int`, `float`, `bool`). -/
def dtype_to_type : Dtype → PyType
  | .objectDt => .pyStr
  | .int64 => .pyInt
  | .float64 => .pyFloat
  | .boolDt => .pyBool

/-- Nonempty all-ASCII-digit character list. -/
def digitsNonempty (cs : List Char) : Bool := !cs.isEmpty && cs.all (fun c => c.isDigit)

/-- Decimal integer literal, optionally signed. -/
def isIntLit (s : String) : Bool :=
  match s.data with
  | c :: cs => if c = Char.ofNat 45 then digitsNonempty cs else digitsNonempty (c :: cs)
  | [] => false

/-- Decimal numeric literal, optionally signed, optional fractional part. -/
def isNumLit (s : String) : Bool :=
  let cs := match s.data with
    | c :: t => if c = Char.ofNat 45 then t else c :: t
    | [] => []
  let ds := cs.takeWhile (fun c => c.isDigit)
  let rest := cs.dropWhile (fun c => c.isDigit)
  !ds.isEmpty &&
    (rest.isEmpty ||
      (match rest with
       | c :: fs => c = Char.ofNat 46 && fs.all (fun d => d.isDigit)
       | [] => false))

/-- Model of the collaborator pandas `read_csv` column dtype inference,
restricted to what the claims need: a column whose cells are all missing is
stored as all-NaN and typed `float64`; a column with every cell present and
parsing as a decimal integer is `int64`; a column with every cell present
and equal to the literal `True`/`False` is `bool`; otherwise, if every
present cell parses as a decimal number (missing cells allowed, they become
NaN) the column is `float64`; anything else is `object` (text). -/
def inferDtype (cells : List (Option String)) : Dtype :=
  if cells.all (fun c => c.isNone) then .float64
  else if cells.all (fun c => match c with | some s => isIntLit s | none => false) then .int64
  else if cells.all (fun c => match c with
      | some s => (s = "True" : Bool) || (s = "False" : Bool)
      | none => false) then .boolDt
  else if cells.all (fun c => match c with | some s => isNumLit s | none => true) then .float64
  else .objectDt

/-- `df[col].iloc[df[col].first_valid_index()]`: the first non-null cell of
the column (pandas `first_valid_index` returns the index of the first
non-NaN entry, `None` when there is none). -/
def first_valid (cells : List (Option String)) : Option String :=
  cells.findSome? id

/-- Exactly ten characters shaped `dddd-dd-dd` (the source's anchored date
pattern with ASCII digit classes). -/
def dateShape : List Char → Bool
  | [y1, y2, y3, y4, h1, m1, m2, h2, d1, d2] =>
    y1.isDigit && y2.isDigit && y3.isDigit && y4.isDigit &&
      h1 = Char.ofNat 45 && m1.isDigit && m2.isDigit &&
      h2 = Char.ofNat 45 && d1.isDigit && d2.isDigit
  | _ => false

/-- `is_date_string` (source lines 19-21): `re.match` of the anchored
pattern; the trailing `$` of a Python pattern also matches just before one
final newline, hence the second disjunct. -/
def is_date_string (s : String) : Bool :=
  dateShape s.data ||
    (match s.data.getLast? with
     | some c => (c = Char.ofNat 10 : Bool) && dateShape s.data.dropLast
     | none => false)

/-- The query parameters `FastAPI_CSV.__init__` adds for one column (source
lines 141-156), in registration order: the bare column name typed as the
column (`Equals`), the `_selected` bool flag, then the numeric comparison
quartet for `int`/`float` columns, or `_contains`, `_like`, `_regex` for
`str` columns followed, when the first non-null value matches the date
pattern, by `_isBefore` and `_isAfter`. A `str` column with no non-null
value makes `first_valid_index()` return `None` and the `iloc` lookup
raise, modelled as the error branch. -/
def columnParams (col : String) (cells : List (Option String)) :
    Except String (List (String × PyType)) :=
  let t := dtype_to_type (inferDtype cells)
  let base := [(col, t), (col ++ "_selected", PyType.pyBool)]
  match t with
  | .pyInt | .pyFloat =>
    .ok (base ++
      [(col ++ "_greaterThan", t), (col ++ "_greaterThanEqual", t),
       (col ++ "_lessThan", t), (col ++ "_lessThanEqual", t)])
  | .pyBool => .ok base
  | .pyStr =>
    match first_valid cells with
    | none => .error "first_valid_index is None and iloc raises"
    | some v =>
      .ok (base ++
        [(col ++ "_contains", t), (col ++ "_like", t), (col ++ "_regex", t)] ++
        (if is_date_string v then
          [(col ++ "_isBefore", t), (col ++ "_isAfter", t)] else []))

/-- Grammar construction over all columns, left to right; the first failing
column aborts construction. -/
def columnsParams :
    List (String × List (Option String)) → Except String (List (String × PyType))
  | [] => .ok []
  | c :: cs =>
    match columnParams c.1 c.2 with
    | .error e => .error e
    | .ok l =>
      match columnsParams cs with
      | .error e => .error e
      | .ok rest => .ok (l ++ rest)

/-- The full grammar of the generated endpoint: `use_distinct` is registered
first (source line 137), then the per-column parameters in column order. -/
def grammarOf (cols : List (String × List (Option String))) :
    Except String (List (String × PyType)) :=
  match columnsParams cols with
  | .error e => .error e
  | .ok ps => .ok (("use_distinct", PyType.pyBool) :: ps)

/-- The semantic column types named by the specification. -/
inductive SemType where
  | integer
  | float
  | boolean
  | string
  | dateLike
deriving DecidableEq

/-- The semantic type the source's pipeline assigns to a column: the dtype
conversion of `dtype_to_type`, refined to `dateLike` for a `str` column
whose first non-null value matches the date pattern. -/
def classify (cells : List (Option String)) : SemType :=
  match dtype_to_type (inferDtype cells) with
  | .pyInt => .integer
  | .pyFloat => .float
  | .pyBool => .boolean
  | .pyStr =>
    match first_valid cells with
    | some v => if is_date_string v then .dateLike else .string
    | none => .string

/-- The per-column parameter set exactly as the claim words it: every column
gets Equals and SelectFlag; Integer/Float columns additionally get exactly
greaterThan, greaterThanEqual, lessThan, lessThanEqual typed as the column's
own type; String columns additionally get exactly contains, like, regex;
DateLike columns additionally get isBefore and isAfter. -/
def claimedColParams (col : String) (t : SemType) : List (String × PyType) :=
  let own : PyType := match t with
    | .integer => .pyInt
    | .float => .pyFloat
    | .boolean => .pyBool
    | .string | .dateLike => .pyStr
  [(col, own), (col ++ "_selected", PyType.pyBool)] ++
    (match t with
     | .integer | .float =>
       [(col ++ "_greaterThan", own), (col ++ "_greaterThanEqual", own),
        (col ++ "_lessThan", own), (col ++ "_lessThanEqual", own)]
     | .boolean => []
     | .string =>
       [(col ++ "_contains", own), (col ++ "_like", own), (col ++ "_regex", own)]
     | .dateLike =>
       [(col ++ "_contains", own), (col ++ "_like", own), (col ++ "_regex", own),
        (col ++ "_isBefore", own), (col ++ "_isAfter", own)])

/-! ## Store lifecycle (`update_database`, `delete_database`) -/

/-- Observable lifecycle events of the store: closing the active sqlite
connection, clearing `self.con`, binding `self.con` to a fresh in-memory
connection (the reference swap), reading the CSV, and ingesting the
dataframe via `to_sql`. -/
inductive LifeEv where
  | closeCon
  | clearRef
  | connect
  | readCsv
  | ingest
deriving DecidableEq

/-- The mutable connection field `self.con`; the number identifies which
connection object the reference currently holds. -/
structure ConnState where
  con : Option Nat
deriving DecidableEq

/-- `delete_database` (source lines 165-177): when a connection is active,
close it and set `self.con = None`; otherwise do nothing. -/
def delete_database (s : ConnState) : ConnState × List LifeEv :=
  match s.con with
  | some _ => (⟨none⟩, [.closeCon, .clearRef])
  | none => (s, [])

/-- `update_database` (source lines 179-199), as an event trace: first
`self.delete_database()`, then `self.con = sqlite3.connect(":memory:")`,
then `df = pd.read_csv(...)`, then a second
`self.con = sqlite3.connect(":memory:")`, then `df.to_sql(...)`. `fresh`
and `fresh + 1` are the identities of the two new connections. -/
def update_database (s : ConnState) (fresh : Nat) : ConnState × List LifeEv :=
  let r := delete_database s
  (⟨some (fresh + 1)⟩, r.2 ++ [.connect, .readCsv, .connect, .ingest])

/-- The ordering discipline the claim states: every release of an active
store happens only after the active-reference has already been swapped to a
new store, i.e. every close event is preceded by a connect event. -/
def swapBeforeFree (tr : List LifeEv) : Prop :=
  ∀ i : Fin tr.length, tr.get i = LifeEv.closeCon →
    ∃ j : Fin tr.length, j.val < i.val ∧ tr.get j = LifeEv.connect

/-! ## Query execution model (sqlite WHERE evaluation plus the registered
`regexp` function) -/

/-- An abstract regular-expression engine standing for Python's `re`
module: which pattern strings compile, and, for a compiling pattern,
whether `search` finds a hit in a given item. Keeping the engine abstract
makes the execution theorems hold for every regex dialect. -/
structure RegexEngine where
  compiles : String → Bool
  found : String → String → Bool

/-- Scalar values a sqlite cell can hold in this table model (integers and
text; the claims need no reals or blobs). `none` at the cell level is SQL
NULL. -/
inductive SqlScalar where
  | intS (n : Int)
  | textS (s : String)
deriving DecidableEq

/-- Per-request execution errors. -/
inductive QueryErr where
  | invalidPatternError
deriving DecidableEq

/-- The `regexp` function registered on the connection in `update_database`
(source lines 212-219): a `None` item returns `False` before the pattern is
even compiled; a pattern that does not compile makes `re.compile` raise,
modelled as the `invalidPatternError` outcome; otherwise the result is
whether `reg.search(item)` found a hit. -/
def regexp (eng : RegexEngine) (expr : String) (item : Option String) :
    Except QueryErr Bool :=
  match item with
  | none => .ok false
  | some s =>
    if eng.compiles expr then .ok (eng.found expr s) else .error .invalidPatternError

/-- sqlite text rendering of a scalar (for `instr`, `LIKE`, `REGEXP`
coercion). -/
def sqlText : SqlScalar → String
  | .intS n => toString n
  | .textS s => s

/-- sqlite's total comparison order restricted to this scalar model:
integers compare numerically, text compares bytewise, and every integer
sorts before every text. -/
def scalarLt : SqlScalar → SqlScalar → Bool
  | .intS a, .intS b => decide (a < b)
  | .textS a, .textS b => decide (a < b)
  | .intS _, .textS _ => true
  | .textS _, .intS _ => false

/-- sqlite equality on this scalar model. -/
def scalarEqB (a b : SqlScalar) : Bool := decide (a = b)

/-- First index at which `needle` occurs in `hay`, if any. -/
def findSub : List Char → List Char → Option Nat
  | _, [] => some 0
  | [], _ :: _ => none
  | h :: t, n =>
    if n.isPrefixOf (h :: t) then some 0 else (findSub t n).map (fun i => i + 1)

/-- sqlite `instr(hay, needle)`: 1-based position of the first occurrence,
0 when absent. -/
def instrPos (hay needle : String) : Nat :=
  match findSub hay.data needle.data with
  | some i => i + 1
  | none => 0

/-- sqlite `LIKE` matching: `%` matches any run, an underscore matches any
single character, plain characters match ASCII case-insensitively. First
argument is the pattern, second the text. -/
def likeMatch : List Char → List Char → Bool
  | [], [] => true
  | [], _ :: _ => false
  | p :: ps, t =>
    if p = Char.ofNat 37 then
      likeMatch ps t ||
        (match t with
         | [] => false
         | _ :: ts => likeMatch (p :: ps) ts)
    else
      match t with
      | [] => false
      | c :: ts =>
        (decide (p = Char.ofNat 95) || p.toLower == c.toLower) && likeMatch ps ts
termination_by p t => (p.length, t.length)

/-- sqlite `DATE(x)`: NULL propagates, a text value is returned (in this
model) only when it already has the strict date shape, anything else
(malformed text, numeric julian input) is modelled as NULL. -/
def sqlDate : Option SqlScalar → Option String
  | some (.textS s) => if dateShape s.data then some s else none
  | _ => none

/-- The operator kinds appearing in generated WHERE clauses. -/
inductive WhereOp where
  | eqOp
  | gtOp
  | geOp
  | ltOp
  | leOp
  | containsOp
  | likeOp
  | regexOp
  | beforeOp
  | afterOp
deriving DecidableEq

/-- sqlite three-valued evaluation of one generated WHERE clause shape
against one row cell: `col=v`, `col>v`, `col>=v`, `col<v`, `col<=v`,
`instr(col, v) > 0`, `col LIKE v`, `col REGEXP v` (which calls the
registered `regexp(v, col)`), `DATE(col) < DATE(v)` and
`DATE(col) > DATE(v)`. A NULL operand anywhere inside a comparison makes
the comparison NULL; only the registered `regexp` function turns a NULL
item into plain false. -/
def clauseTruth (eng : RegexEngine) (op : WhereOp) (v : SqlScalar)
    (cell : Option SqlScalar) : Except QueryErr (Option Bool) :=
  match op with
  | .eqOp => .ok (cell.map (fun c => scalarEqB c v))
  | .gtOp => .ok (cell.map (fun c => scalarLt v c))
  | .geOp => .ok (cell.map (fun c => !scalarLt c v))
  | .ltOp => .ok (cell.map (fun c => scalarLt c v))
  | .leOp => .ok (cell.map (fun c => !scalarLt v c))
  | .containsOp => .ok (cell.map (fun c => decide (instrPos (sqlText c) (sqlText v) > 0)))
  | .likeOp => .ok (cell.map (fun c => likeMatch (sqlText v).data (sqlText c).data))
  | .regexOp => (regexp eng (sqlText v) (cell.map sqlText)).map (fun b => some b)
  | .beforeOp =>
    .ok (match sqlDate cell, sqlDate (some v) with
      | some a, some b => some (decide (a < b))
      | _, _ => none)
  | .afterOp =>
    .ok (match sqlDate cell, sqlDate (some v) with
      | some a, some b => some (decide (b < a))
      | _, _ => none)

/-- A WHERE clause keeps a row only when its three-valued truth is exactly
true (sqlite discards rows whose WHERE value is false or NULL). -/
def clauseKeeps (eng : RegexEngine) (op : WhereOp) (v : SqlScalar)
    (cell : Option SqlScalar) : Except QueryErr Bool :=
  (clauseTruth eng op v cell).map (fun t => t == some true)

/-- SQL three-valued AND. -/
def and3 : Option Bool → Option Bool → Option Bool
  | some false, _ => some false
  | _, some false => some false
  | some true, some true => some true
  | _, _ => none

/-- One structured WHERE clause: target column, operator kind, operand. -/
structure ClauseSpec where
  col : String
  op : WhereOp
  operand : SqlScalar

/-- Three-valued truth of the AND of all clauses on one row; an evaluation
error anywhere aborts the whole row. -/
def rowMatches (eng : RegexEngine) (row : String → Option SqlScalar) :
    List ClauseSpec → Except QueryErr (Option Bool)
  | [] => .ok (some true)
  | c :: cs =>
    match clauseTruth eng c.op c.operand (row c.col) with
    | .error e => .error e
    | .ok t =>
      match rowMatches eng row cs with
      | .error e => .error e
      | .ok rest => .ok (and3 t rest)

/-- Scanning all rows of the table, keeping those whose WHERE value is
exactly true: the model of `con.execute(...)` plus `cur.fetchall()`. An
error raised while any row is evaluated aborts the whole fetch, so no
partial row list is ever produced. -/
def filterRowsE (eng : RegexEngine) (cs : List ClauseSpec) :
    List (String → Option SqlScalar) →
      Except QueryErr (List (String → Option SqlScalar))
  | [] => .ok []
  | r :: rs =>
    match rowMatches eng r cs with
    | .error e => .error e
    | .ok t =>
      match filterRowsE eng cs rs with
      | .error e => .error e
      | .ok rest => .ok (if t = some true then r :: rest else rest)

/-! ## Transport and projection -/

/-- The transport layer (fastapi): the handler receives one keyword
argument per declared query parameter, in declaration order, valued from
the request mapping; declared parameters the request does not supply arrive
as `None`, and request keys that match no declared parameter never reach
the handler at all. -/
def kwargsFor (grammar : List (String × PyType)) (req : String → Option PyVal) :
    List (String × Option PyVal) :=
  grammar.map (fun pr => (pr.1, req pr.1))

/-- The column list of the executed SELECT: all table columns for `*`,
otherwise the comma-joined selection in its own order (model of sqlite
column resolution for the generated statement). -/
def projectionOf (tableCols : List String) (p : QueryParts) : List String :=
  if p.selected_cols.isEmpty then tableCols else p.selected_cols

/-- The row dicts built by `dict_factory` (source lines 203-208): one key
per cursor column, in cursor order. -/
def projectRows (projCols : List String)
    (rows : List (String → Option SqlScalar)) :
    List (List (String × Option SqlScalar)) :=
  rows.map (fun r => projCols.map (fun c => (c, r c)))

/-! ## Witness fixtures -/

/-- A small dataframe: a text column, an integer column, a date-like text
column, a float column with a missing cell, and a boolean column. -/
def wcols : List (String × List (Option String)) :=
  [("name", [some "ann", some "bob"]),
   ("age", [some "30", some "41"]),
   ("joined", [some "2020-01-01", some "2021-07-15"]),
   ("score", [some "1.5", none]),
   ("flag", [some "True", some "False"])]

/-- The grammar the construction computes for `wcols`. -/
def wgram : List (String × PyType) :=
  match grammarOf wcols with
  | .ok g => g
  | .error _ => []

/-- A regex engine on which no pattern compiles (any engine works for the
invalid-pattern theorems; this is the simplest concrete one). -/
def engNone : RegexEngine where
  compiles := fun _ => false
  found := fun _ _ => false

/-- One table row with a non-null `age` cell. -/
def wrow : String → Option SqlScalar :=
  fun c => if c = "age" then some (.intS 30) else none

/-- A row that is null in every column. -/
def wrowNull : String → Option SqlScalar := fun _ => none

/-- Request mapping for the projection witness: both selection flags
supplied (one of them with value false), plus an unrelated filter. -/
def w9req : String → Option PyVal :=
  fun n =>
    if n = "age_selected" then some (.vBool true)
    else if n = "name_selected" then some (.vBool false)
    else if n = "age_greaterThan" then some (.vInt 20)
    else none

/-- What one keyword argument contributes to `selected_cols` in the kwargs
loop: the truncated name when the value is non-null, the name is not
`use_distinct`, and the name ends with the selection suffix. -/
def selContrib (kv : String × Option PyVal) : List String :=
  match kv.2 with
  | none => []
  | some _ =>
    if kv.1 = "use_distinct" then []
    else if pyEndswith kv.1 "_selected" then [pyDropRight kv.1 9]
    else []

/-- The suffixes the kwargs loop of `generic_get` recognizes, in dispatch
order; a non-null parameter whose name bears none of them and is not
`use_distinct` falls through to the Equals branch. -/
def knownSuffixes : List String :=
  ["_selected", "_greaterThan", "_greaterThanEqual", "_lessThan",
   "_lessThanEqual", "_contains", "_like", "_regex", "_isBefore", "_isAfter"]

/-! ## Helper lemmas about the Python string primitives -/

theorem pyEndswith_append (c t : String) : pyEndswith (c ++ t) t = true := by
  simp only [pyEndswith, String.data_append, decide_eq_true_eq]
  exact List.suffix_append c.data t.data

theorem pyEndswith_append_cases {c t1 t2 : String}
    (h : pyEndswith (c ++ t1) t2 = true) :
    t2.data <:+ t1.data ∨ t1.data <:+ t2.data := by
  have h' : t2.data <:+ c.data ++ t1.data := by
    simpa only [pyEndswith, String.data_append, decide_eq_true_eq] using h
  exact List.suffix_or_suffix_of_suffix h' (List.suffix_append c.data t1.data)

theorem pyEndswith_append_false (c : String) {t1 t2 : String}
    (h1 : ¬ t2.data <:+ t1.data) (h2 : ¬ t1.data <:+ t2.data) :
    pyEndswith (c ++ t1) t2 = false := by
  cases hb : pyEndswith (c ++ t1) t2 with
  | false => rfl
  | true =>
    rcases pyEndswith_append_cases hb with h | h
    · exact absurd h h1
    · exact absurd h h2

theorem append_ne_of_not_suffix {t u : String} (c : String)
    (h : ¬ t.data <:+ u.data) : c ++ t ≠ u := by
  intro he
  apply h
  rw [← he, String.data_append]
  exact List.suffix_append c.data t.data

theorem pyDropRight_append (c t : String) :
    pyDropRight (c ++ t) t.data.length = c := by
  unfold pyDropRight
  rw [String.data_append]
  have hl : (c.data ++ t.data).length - t.data.length = c.data.length := by
    simp
  rw [hl, List.take_left]

theorem pyDropRight_selected (c : String) : pyDropRight (c ++ "_selected") 9 = c := by
  have h := pyDropRight_append c "_selected"
  have e : ("_selected" : String).data.length = 9 := by decide
  rw [e] at h
  exact h

/-! ## How `selected_cols` accumulates in the kwargs loop -/

theorem step_selected_cols (acc : QueryParts) (n : String) (ov : Option PyVal) :
    (step acc (n, ov)).selected_cols = acc.selected_cols ++ selContrib (n, ov) := by
  cases ov with
  | none => simp [step, selContrib]
  | some v =>
    simp only [step, selContrib]
    simp only [apply_ite QueryParts.selected_cols]
    by_cases h1 : n = "use_distinct"
    · simp [h1]
    · by_cases h2 : pyEndswith n "_selected" = true
      · simp [h1, h2]
      · simp [h1, h2, ite_self]

theorem foldl_step_selected_cols (kwargs : List (String × Option PyVal))
    (acc : QueryParts) :
    (kwargs.foldl step acc).selected_cols =
      acc.selected_cols ++ kwargs.flatMap selContrib := by
  induction kwargs generalizing acc with
  | nil => simp
  | cons kv ks ih =>
    cases kv with
    | mk n ov =>
      rw [List.foldl_cons, ih, List.flatMap_cons, step_selected_cols,
        List.append_assoc]

theorem genericGetParts_selected_cols (kwargs : List (String × Option PyVal)) :
    (genericGetParts kwargs).selected_cols = kwargs.flatMap selContrib := by
  unfold genericGetParts
  rw [foldl_step_selected_cols]
  rfl

theorem selContrib_flag (c : String) (ov : Option PyVal) :
    selContrib (c ++ "_selected", ov) = if ov.isSome then [c] else [] := by
  cases ov with
  | none => rfl
  | some v =>
    simp only [selContrib, Option.isSome_some, if_true]
    rw [if_neg (append_ne_of_not_suffix c (by decide)), pyEndswith_append,
      pyDropRight_selected]
    rfl

theorem selContrib_other {n : String} (ov : Option PyVal)
    (h1 : n ≠ "use_distinct") (h2 : pyEndswith n "_selected" = false) :
    selContrib (n, ov) = [] := by
  cases ov <;> simp [selContrib, h1, h2]

theorem selContrib_suffixed (c : String) (ov : Option PyVal) {t : String}
    (h1 : ¬ t.data <:+ ("use_distinct" : String).data)
    (h2 : ¬ ("_selected" : String).data <:+ t.data)
    (h3 : ¬ t.data <:+ ("_selected" : String).data) :
    selContrib (c ++ t, ov) = [] := by
  apply selContrib_other
  · exact append_ne_of_not_suffix c h1
  · exact pyEndswith_append_false c h2 h3

/-! ## Grammar construction versus the claimed per-type parameter sets -/

theorem columnParams_eq_claimed {col : String} {cells : List (Option String)}
    {l : List (String × PyType)} (h : columnParams col cells = .ok l) :
    l = claimedColParams col (classify cells) := by
  unfold columnParams at h
  unfold classify
  cases hd : dtype_to_type (inferDtype cells) with
  | pyInt =>
    rw [hd] at h
    simp only [Except.ok.injEq] at h
    subst h
    rfl
  | pyFloat =>
    rw [hd] at h
    simp only [Except.ok.injEq] at h
    subst h
    rfl
  | pyBool =>
    rw [hd] at h
    simp only [Except.ok.injEq] at h
    subst h
    rfl
  | pyStr =>
    rw [hd] at h
    cases hv : first_valid cells with
    | none => rw [hv] at h; exact absurd h (by simp)
    | some v =>
      rw [hv] at h
      simp only [Except.ok.injEq] at h
      subst h
      by_cases hdate : is_date_string v = true
      · simp [hdate, claimedColParams]
      · simp only [Bool.not_eq_true] at hdate
        simp [hdate, claimedColParams]

theorem columnsParams_ok {cols : List (String × List (Option String))}
    {ps : List (String × PyType)} (h : columnsParams cols = .ok ps) :
    ps = cols.flatMap (fun c => claimedColParams c.1 (classify c.2)) := by
  induction cols generalizing ps with
  | nil =>
    simp only [columnsParams, Except.ok.injEq] at h
    subst h
    rfl
  | cons c cs ih =>
    simp only [columnsParams] at h
    cases h1 : columnParams c.1 c.2 with
    | error e => rw [h1] at h; simp at h
    | ok l =>
      rw [h1] at h
      cases h2 : columnsParams cs with
      | error e => rw [h2] at h; simp at h
      | ok rest =>
        rw [h2] at h
        simp only [Except.ok.injEq] at h
        subst h
        rw [List.flatMap_cons, columnParams_eq_claimed h1, ih h2]

/-- A grammar that construction accepted is exactly `use_distinct` followed
by the per-column claimed parameter sets, in column order. -/
theorem grammarOf_ok {cols : List (String × List (Option String))}
    {g : List (String × PyType)} (h : grammarOf cols = .ok g) :
    g = ("use_distinct", PyType.pyBool) ::
      cols.flatMap (fun c => claimedColParams c.1 (classify c.2)) := by
  unfold grammarOf at h
  cases hc : columnsParams cols with
  | error e => rw [hc] at h; simp at h
  | ok ps =>
    rw [hc] at h
    simp only [Except.ok.injEq] at h
    subst h
    rw [columnsParams_ok hc]

/-- For a column whose name is hygienic (not `use_distinct` and not itself
ending in the selection suffix), the only parameter among its generated set
that can contribute to `selected_cols` is the `_selected` flag, and it
contributes the column name exactly when the request supplies it. -/
theorem claimed_selContrib (col : String) (t : SemType)
    (req : String → Option PyVal)
    (h1 : col ≠ "use_distinct") (h2 : pyEndswith col "_selected" = false) :
    ((claimedColParams col t).flatMap (fun pr => selContrib (pr.1, req pr.1))) =
      if (req (col ++ "_selected")).isSome then [col] else [] := by
  have hcol := selContrib_other (req col) h1 h2
  have hflag := selContrib_flag col (req (col ++ "_selected"))
  have hgt := fun ov => selContrib_suffixed col ov
    (t := "_greaterThan") (by decide) (by decide) (by decide)
  have hgte := fun ov => selContrib_suffixed col ov
    (t := "_greaterThanEqual") (by decide) (by decide) (by decide)
  have hlt := fun ov => selContrib_suffixed col ov
    (t := "_lessThan") (by decide) (by decide) (by decide)
  have hlte := fun ov => selContrib_suffixed col ov
    (t := "_lessThanEqual") (by decide) (by decide) (by decide)
  have hcon := fun ov => selContrib_suffixed col ov
    (t := "_contains") (by decide) (by decide) (by decide)
  have hlike := fun ov => selContrib_suffixed col ov
    (t := "_like") (by decide) (by decide) (by decide)
  have hre := fun ov => selContrib_suffixed col ov
    (t := "_regex") (by decide) (by decide) (by decide)
  have hbef := fun ov => selContrib_suffixed col ov
    (t := "_isBefore") (by decide) (by decide) (by decide)
  have haft := fun ov => selContrib_suffixed col ov
    (t := "_isAfter") (by decide) (by decide) (by decide)
  cases t <;>
    simp [claimedColParams, hcol, hflag, hgt, hgte, hlt, hlte, hcon, hlike,
      hre, hbef, haft]

theorem columnsParams_selContrib {cols : List (String × List (Option String))}
    {ps : List (String × PyType)} (req : String → Option PyVal)
    (hok : columnsParams cols = .ok ps)
    (hhyg : ∀ p ∈ cols, p.1 ≠ "use_distinct" ∧ pyEndswith p.1 "_selected" = false) :
    ps.flatMap (fun pr => selContrib (pr.1, req pr.1)) =
      (cols.map Prod.fst).filter (fun c => (req (c ++ "_selected")).isSome) := by
  induction cols generalizing ps with
  | nil =>
    simp only [columnsParams, Except.ok.injEq] at hok
    subst hok
    rfl
  | cons c cs ih =>
    simp only [columnsParams] at hok
    cases h1 : columnParams c.1 c.2 with
    | error e => rw [h1] at hok; simp at hok
    | ok l =>
      rw [h1] at hok
      cases h2 : columnsParams cs with
      | error e => rw [h2] at hok; simp at hok
      | ok rest =>
        rw [h2] at hok
        simp only [Except.ok.injEq] at hok
        subst hok
        have hc := hhyg c (by simp)
        rw [List.flatMap_append, columnParams_eq_claimed h1,
          claimed_selContrib c.1 (classify c.2) req hc.1 hc.2,
          ih h2 (fun p hp => hhyg p (by simp [hp]))]
        simp only [List.map_cons, List.filter_cons]
        by_cases hs : (req (c.1 ++ "_selected")).isSome = true
        · simp [hs]
        · simp [hs]

/-! ## Claim theorems -/

/-- C1: the claim says every supplied parameter value reaches the executor
as a typed bound operand and is never interpolated into the textual query.
The code does the opposite: at the concrete request `name=Bobby` against
`people.csv`, the handler produces the SQL text with the operand spliced
verbatim between quotes, and this very text is what `query_database` hands
to `con.execute` — there is no binding channel at all. -/
theorem c1_value_interpolated_into_sql_text :
    endpointOf "people.csv" [("name", some (.vStr "Bobby"))] =
      "SELECT  * FROM people WHERE name=" ++ sq ++ "Bobby" ++ sq := by
  decide

/-- C2 counterexample: a parameter map holding the unknown name
`unknown_col` next to the valid parameter `age` does not fail — compilation
succeeds and produces a query with the unknown name forwarded into the text
as an equality clause, contradicting the claimed all-or-nothing
`UnknownParameterError`. -/
theorem c2_counterexample_unknown_forwarded :
    generic_get "people"
        [("age", some (.vInt 30)), ("unknown_col", some (.vStr "x"))] =
      "SELECT  * FROM people WHERE age=30 AND unknown_col=" ++ sq ++ "x" ++ sq := by
  decide

/-- C2 amended: compilation never fails on an unrecognized name. A supplied
parameter whose name is not `use_distinct` and bears none of the recognized
suffixes is forwarded into the query text as an equality clause (in the
deployed system the transport additionally drops request keys that match no
declared parameter, so they are silently ignored rather than rejected); no
`UnknownParameterError` exists anywhere in the code. -/
theorem c2_amended_unknown_never_rejected (name : String) (v : PyVal)
    (h1 : name ≠ "use_distinct")
    (h2 : knownSuffixes.all (fun t => !(pyEndswith name t)) = true) :
    genericGetParts [(name, some v)] =
      ⟨[], [name ++ "=" ++ eqRender v], false⟩ := by
  simp only [knownSuffixes, List.all_cons, List.all_nil, Bool.and_true,
    Bool.and_eq_true, Bool.not_eq_true'] at h2
  obtain ⟨e1, e2, e3, e4, e5, e6, e7, e8, e9, e10⟩ := h2
  unfold genericGetParts
  simp only [List.foldl_cons, List.foldl_nil, step]
  rw [if_neg h1]
  simp [e1, e2, e3, e4, e5, e6, e7, e8, e9, e10]

/-- C2 witness: the amended statement at the concrete unknown name. -/
theorem c2_witness :
    ("unknown_col" ≠ "use_distinct") ∧
    (knownSuffixes.all (fun t => !(pyEndswith "unknown_col" t)) = true) ∧
    genericGetParts [("unknown_col", some (.vStr "x"))] =
      ⟨[], ["unknown_col" ++ "=" ++ eqRender (.vStr "x")], false⟩ :=
  ⟨by decide, by decide,
    c2_amended_unknown_never_rejected "unknown_col" (.vStr "x") (by decide) (by decide)⟩

/-- C4 counterexample: reloading from a loaded state produces the event
trace close, clear, connect, read, connect, ingest — the old store is
closed as the very first step, before any new store exists, so the claimed
swap-before-free discipline is violated. -/
theorem c4_counterexample_free_before_swap :
    (update_database ⟨some 0⟩ 1).2 =
      [LifeEv.closeCon, LifeEv.clearRef, LifeEv.connect, LifeEv.readCsv,
        LifeEv.connect, LifeEv.ingest] ∧
    ¬ swapBeforeFree (update_database ⟨some 0⟩ 1).2 := by
  constructor
  · rfl
  · intro hcl
    rcases hcl ⟨0, by decide⟩ rfl with ⟨j, hj, hje⟩
    exact Nat.not_lt_zero j.val hj

/-- C4 amended: during a reload from a loaded state the old store is closed
and its reference cleared first — the first trace event is the close — and
only afterwards are the two new connections created and swapped in; the
final reference holds the second new connection. -/
theorem c4_amended_old_freed_first (s : ConnState) (c fresh : Nat)
    (h : s.con = some c) :
    (update_database s fresh).2 =
      [LifeEv.closeCon, LifeEv.clearRef, LifeEv.connect, LifeEv.readCsv,
        LifeEv.connect, LifeEv.ingest] ∧
    (update_database s fresh).2.head? = some LifeEv.closeCon ∧
    (update_database s fresh).1 = ⟨some (fresh + 1)⟩ := by
  obtain ⟨con⟩ := s
  cases con with
  | none => exact Option.noConfusion h
  | some k => exact ⟨rfl, rfl, rfl⟩

/-- C4 witness: the amended statement at a concrete loaded state. -/
theorem c4_witness :
    ((⟨some 0⟩ : ConnState).con = some 0) ∧
    ((update_database ⟨some 0⟩ 5).2 =
      [LifeEv.closeCon, LifeEv.clearRef, LifeEv.connect, LifeEv.readCsv,
        LifeEv.connect, LifeEv.ingest] ∧
    (update_database ⟨some 0⟩ 5).2.head? = some LifeEv.closeCon ∧
    (update_database ⟨some 0⟩ 5).1 = ⟨some 6⟩) :=
  ⟨rfl, c4_amended_old_freed_first ⟨some 0⟩ 0 5 rfl⟩

/-- C5 counterexample: supplying the selection flag with the boolean value
false still adds the column to the projection — the claim says a false flag
leaves the projection unchanged (all columns, `SELECT *`), but the handler
compiles `SELECT age`. -/
theorem c5_counterexample_false_flag_selects :
    generic_get "people" [("age_selected", some (.vBool false))] =
      "SELECT  age FROM people " ∧
    (genericGetParts [("age_selected", some (.vBool false))]).selected_cols =
      ["age"] := by
  exact ⟨by decide, by decide⟩

/-- C5 amended: a column is added to the projection whenever its selection
flag is supplied with any non-null value — true or false alike — and only
omitting the flag (null value) leaves the projection unchanged; the loop
tests `val is not None`, never the boolean itself. -/
theorem c5_amended_any_non_null_selects (c : String) (v : PyVal) :
    (genericGetParts [(c ++ "_selected", some v)]).selected_cols = [c] ∧
    (genericGetParts [(c ++ "_selected", none)]).selected_cols = [] := by
  constructor
  · rw [genericGetParts_selected_cols]
    simp only [List.flatMap_cons, List.flatMap_nil, List.append_nil]
    rw [selContrib_flag]
    rfl
  · rw [genericGetParts_selected_cols]
    simp only [List.flatMap_cons, List.flatMap_nil, List.append_nil]
    rfl

/-- C6: a NULL cell makes every generated filter shape — Equals, the four
orderings, Contains, Like, MatchesRegex, IsBefore, IsAfter — exclude the
row, and evaluation returns an ordinary result rather than an error, for
every regex engine, operator and operand (in particular even a non-compiling
regex pattern raises nothing on a NULL cell, because the registered
`regexp` function returns False before compiling the pattern). -/
theorem c6_null_cell_always_excluded_never_throws
    (eng : RegexEngine) (op : WhereOp) (v : SqlScalar) :
    clauseKeeps eng op v none = .ok false := by
  cases op <;> rfl

/-- C8 counterexample: a column with zero non-null values is typed
`float64` by the ingesting engine, so the construction classifies it Float,
not String as the claim states (construction does succeed and no date
operators appear, as the claim also states). -/
theorem c8_counterexample_all_null_is_float :
    columnParams "notes" [none] =
      .ok [("notes", PyType.pyFloat), ("notes_selected", PyType.pyBool),
        ("notes_greaterThan", PyType.pyFloat),
        ("notes_greaterThanEqual", PyType.pyFloat),
        ("notes_lessThan", PyType.pyFloat),
        ("notes_lessThanEqual", PyType.pyFloat)] ∧
    classify [none] = SemType.float ∧ SemType.float ≠ SemType.string := by
  exact ⟨rfl, rfl, by decide⟩

/-- C8 amended: for every column with zero non-null values, grammar
construction succeeds and classifies the column as Float (pandas stores an
all-missing column as all-NaN `float64`): it receives exactly the numeric
parameter set, is never tested for date-likeness, and receives no date
operators. -/
theorem c8_amended_all_null_column (col : String) (cells : List (Option String))
    (h : cells.all (fun c => c.isNone) = true) :
    columnParams col cells =
      .ok [(col, PyType.pyFloat), (col ++ "_selected", PyType.pyBool),
        (col ++ "_greaterThan", PyType.pyFloat),
        (col ++ "_greaterThanEqual", PyType.pyFloat),
        (col ++ "_lessThan", PyType.pyFloat),
        (col ++ "_lessThanEqual", PyType.pyFloat)] ∧
    classify cells = SemType.float := by
  have hd : inferDtype cells = Dtype.float64 := by
    unfold inferDtype
    rw [if_pos h]
  constructor
  · unfold columnParams
    rw [hd]
    rfl
  · unfold classify
    rw [hd]
    rfl

/-- C8 witness: the amended statement at a concrete all-null column. -/
theorem c8_witness :
    (([none] : List (Option String)).all (fun c => c.isNone) = true) ∧
    (columnParams "memo" [none] =
      .ok [("memo", PyType.pyFloat), ("memo" ++ "_selected", PyType.pyBool),
        ("memo" ++ "_greaterThan", PyType.pyFloat),
        ("memo" ++ "_greaterThanEqual", PyType.pyFloat),
        ("memo" ++ "_lessThan", PyType.pyFloat),
        ("memo" ++ "_lessThanEqual", PyType.pyFloat)] ∧
    classify [none] = SemType.float) :=
  ⟨rfl, c8_amended_all_null_column "memo" [none] rfl⟩

/-- C3: a grammar the construction accepts is exactly `use_distinct`
followed, per column in column order, by the parameter set the claim
specifies for the column's inferred semantic type: Equals and SelectFlag
always; the four ordering comparisons typed as the column's own type for
Integer/Float; contains, like, regex for String; additionally isBefore and
isAfter for DateLike. -/
theorem c3_grammar_is_exactly_claimed (cols : List (String × List (Option String)))
    (g : List (String × PyType)) (hg : grammarOf cols = .ok g) :
    g = ("use_distinct", PyType.pyBool) ::
      cols.flatMap (fun c => claimedColParams c.1 (classify c.2)) :=
  grammarOf_ok hg

/-- C3 witness: the grammar of a concrete five-column dataframe (text,
integer, date-like text, float with a missing cell, boolean). -/
theorem c3_witness :
    grammarOf wcols = .ok wgram ∧
    wgram = ("use_distinct", PyType.pyBool) ::
      wcols.flatMap (fun c => claimedColParams c.1 (classify c.2)) :=
  ⟨rfl, c3_grammar_is_exactly_claimed wcols wgram rfl⟩

/-- C10: for every CSV path the construction registers exactly one GET
route, at slash followed by the file stem with every hyphen replaced by an
underscore; that same string is the table name, no hyphen survives in it,
and every SQL text the endpoint compiles names it after FROM. -/
theorem c10_route_path_and_table_name (p : String) :
    routesOf p = [("GET", "/" ++ table_name p)] ∧
    table_name p = pyReplaceChar (pyStem p) (Char.ofNat 45) (Char.ofNat 95) ∧
    (Char.ofNat 45) ∉ (table_name p).data ∧
    ∀ kwargs, ∃ pre post,
      endpointOf p kwargs = pre ++ (" FROM " ++ table_name p ++ " ") ++ post := by
  refine ⟨rfl, rfl, ?_, ?_⟩
  · intro hm
    have hm' : Char.ofNat 45 ∈ (pyStem p).data.map
        (fun c => if c = Char.ofNat 45 then Char.ofNat 95 else c) := hm
    rcases List.mem_map.mp hm' with ⟨c0, hc0, he⟩
    by_cases hc : c0 = Char.ofNat 45
    · rw [if_pos hc] at he
      exact absurd he (by decide)
    · rw [if_neg hc] at he
      exact hc he
  · intro kwargs
    refine ⟨"SELECT " ++
        (if (genericGetParts kwargs).use_distinct then "DISTINCT" else "") ++ " " ++
        (if (genericGetParts kwargs).selected_cols.isEmpty then "*"
          else String.intercalate "," (genericGetParts kwargs).selected_cols),
      (if (genericGetParts kwargs).where_clauses.isEmpty then ""
        else "WHERE " ++ String.intercalate " AND " (genericGetParts kwargs).where_clauses),
      ?_⟩
    unfold endpointOf generic_get buildSql
    simp [String.append_assoc]

/-- C7: against any regex engine, when a supplied regex pattern does not
compile, scanning a table that has at least one non-null cell in the
filtered column aborts the whole fetch with the invalid-pattern error: the
request fails as a per-request query error, the evaluation function returns
rather than diverging, and no partial row list is produced (the error
result carries no rows). -/
theorem c7_invalid_pattern_aborts_whole_fetch (eng : RegexEngine)
    (p col : String) (rows : List (String → Option SqlScalar))
    (hc : eng.compiles p = false)
    (hrow : ∃ r ∈ rows, (r col).isSome) :
    filterRowsE eng [⟨col, WhereOp.regexOp, SqlScalar.textS p⟩] rows =
      .error QueryErr.invalidPatternError := by
  induction rows with
  | nil =>
    rcases hrow with ⟨r, hr, _⟩
    exact absurd hr (List.not_mem_nil r)
  | cons r rs ih =>
    rcases hrow with ⟨r0, hr0, hs0⟩
    rcases List.mem_cons.mp hr0 with he | ht
    · subst he
      rcases Option.isSome_iff_exists.mp hs0 with ⟨s, hs⟩
      simp [filterRowsE, rowMatches, clauseTruth, regexp, sqlText, Except.map,
        hs, hc]
    · have hrest := ih ⟨r0, ht, hs0⟩
      simp only [filterRowsE]
      cases hm : rowMatches eng r [⟨col, WhereOp.regexOp, SqlScalar.textS p⟩] with
      | error e =>
        cases e
        simp [hm]
      | ok t =>
        simp [hm, hrest]

/-- C7 witness: the theorem at the concrete engine that compiles nothing,
the pattern from the specification example, and a one-row table with a
non-null age cell. -/
theorem c7_witness :
    engNone.compiles "[invalid(" = false ∧
    (∃ r ∈ [wrow], (r "age").isSome) ∧
    filterRowsE engNone
        [⟨"age", WhereOp.regexOp, SqlScalar.textS "[invalid("⟩] [wrow] =
      .error QueryErr.invalidPatternError :=
  ⟨rfl, ⟨wrow, by simp, rfl⟩,
    c7_invalid_pattern_aborts_whole_fetch engNone "[invalid(" "age" [wrow]
      rfl ⟨wrow, by simp, rfl⟩⟩

theorem selContrib_use_distinct (ov : Option PyVal) :
    selContrib ("use_distinct", ov) = [] := by
  cases ov <;> rfl

/-- C9: for a grammar built from hygienically named columns, the projection
the handler compiles is exactly the set of columns whose selection flag the
request supplies, listed in the grammar's declared column order (the
request mapping has no order to contribute: the transport feeds the handler
in declaration order); every returned row mapping carries exactly those
keys in that order, and with no flag supplied every table column is
returned in declared order. -/
theorem c9_projection_declared_order (cols : List (String × List (Option String)))
    (g : List (String × PyType)) (req : String → Option PyVal)
    (tableCols : List String) (rows : List (String → Option SqlScalar))
    (hg : grammarOf cols = .ok g)
    (hhyg : ∀ q ∈ cols, q.1 ≠ "use_distinct" ∧ pyEndswith q.1 "_selected" = false) :
    (genericGetParts (kwargsFor g req)).selected_cols =
      (cols.map Prod.fst).filter (fun c => (req (c ++ "_selected")).isSome) ∧
    ∀ rrow ∈ projectRows
        (projectionOf tableCols (genericGetParts (kwargsFor g req))) rows,
      rrow.map Prod.fst =
        if ((cols.map Prod.fst).filter
              (fun c => (req (c ++ "_selected")).isSome)).isEmpty
        then tableCols
        else (cols.map Prod.fst).filter (fun c => (req (c ++ "_selected")).isSome) := by
  have hsel : (genericGetParts (kwargsFor g req)).selected_cols =
      (cols.map Prod.fst).filter (fun c => (req (c ++ "_selected")).isSome) := by
    unfold grammarOf at hg
    cases hc : columnsParams cols with
    | error e => rw [hc] at hg; simp at hg
    | ok ps =>
      rw [hc] at hg
      simp only [Except.ok.injEq] at hg
      subst hg
      rw [genericGetParts_selected_cols]
      unfold kwargsFor
      simp only [List.map_cons, List.flatMap_cons, selContrib_use_distinct,
        List.nil_append, List.flatMap_map]
      exact columnsParams_selContrib req hc hhyg
  refine ⟨hsel, ?_⟩
  intro rrow hrrow
  simp only [projectRows, List.mem_map] at hrrow
  rcases hrrow with ⟨r, hr, he⟩
  subst he
  rw [List.map_map]
  have hid : (Prod.fst ∘ fun c => (c, r c)) = id := rfl
  rw [hid, List.map_id]
  unfold projectionOf
  rw [hsel]

/-- C9 witness: the five-column dataframe with both selection flags
supplied (one with value false) and an unrelated numeric filter: the
compiled projection is name then age, in declared column order. -/
theorem c9_witness :
    (grammarOf wcols = .ok wgram) ∧
    (∀ q ∈ wcols, q.1 ≠ "use_distinct" ∧ pyEndswith q.1 "_selected" = false) ∧
    ((genericGetParts (kwargsFor wgram w9req)).selected_cols =
      (wcols.map Prod.fst).filter (fun c => (w9req (c ++ "_selected")).isSome) ∧
    ∀ rrow ∈ projectRows
        (projectionOf ["index", "name", "age", "joined", "score", "flag"]
          (genericGetParts (kwargsFor wgram w9req))) [wrow],
      rrow.map Prod.fst =
        if ((wcols.map Prod.fst).filter
              (fun c => (w9req (c ++ "_selected")).isSome)).isEmpty
        then ["index", "name", "age", "joined", "score", "flag"]
        else (wcols.map Prod.fst).filter
          (fun c => (w9req (c ++ "_selected")).isSome)) :=
  ⟨rfl, by decide,
    c9_projection_declared_order wcols wgram w9req
      ["index", "name", "age", "joined", "score", "flag"] [wrow] rfl (by decide)⟩

end FastapiCsv
